import Mathlib

/-!
# Verification of the broto-voice-desk complaint tracker

A shallow embedding of the data model, row-level-security policies,
triggers and client handlers of the student-complaint tracker:

* the SQL schema, triggers and RLS policies of the two migrations
  (tables `profiles`, `user_roles`, `complaints`, `attachments`,
  `complaint_status_history`, the `log_complaint_status_change` trigger,
  the `has_role` / `is_admin` helpers and the storage-bucket policies);
* the client handlers `handleSave` (admin complaint detail),
  `handleSubmit` / `handleFileChange` (new-complaint form), and
  `fetchComplaints` / `filterComplaints` (admin dashboard).

Timestamps are modelled as `Nat`, generated ids as explicit `String`
parameters.  Database state is a record of lists of rows.
-/

deriving instance DecidableEq for Except

namespace BrotoVoiceDesk

/-- `public.app_role` enum. -/
inductive AppRole
  | student
  | admin
deriving DecidableEq, Repr

/-- `public.complaint_category` enum. -/
inductive ComplaintCategory
  | mentor
  | admin
  | academic_counsellor
  | working_hub
  | peer
  | other
deriving DecidableEq, Repr

/-- `public.complaint_status` enum (`open` is a Lean keyword, hence `open_`). -/
inductive ComplaintStatus
  | open_
  | in_progress
  | resolved
deriving DecidableEq, Repr

/-- Row of `public.profiles`. -/
structure Profile where
  id : String
  role : AppRole
  full_name : String
  email : String
  is_active : Bool
deriving DecidableEq, Repr

/-- Row of `public.user_roles` (second migration). -/
structure UserRole where
  user_id : String
  role : AppRole
deriving DecidableEq, Repr

/-- Row of `public.complaints`. -/
structure Complaint where
  id : String
  student_id : String
  title : String
  category : ComplaintCategory
  description : String
  attachment_id : Option String
  status : ComplaintStatus
  admin_note : Option String
  created_at : Nat
  updated_at : Nat
deriving DecidableEq, Repr

/-- Row of `public.attachments`. -/
structure Attachment where
  id : String
  owner_user_id : String
  complaint_id : Option String
  original_filename : String
  stored_path : String
  mime_type : String
  byte_size : Nat
deriving DecidableEq, Repr

/-- Row of `public.complaint_status_history`. -/
structure StatusHistoryEntry where
  id : String
  complaint_id : String
  changed_by_user_id : String
  from_status : Option ComplaintStatus
  to_status : ComplaintStatus
  note_snapshot : Option String
  changed_at : Nat
deriving DecidableEq, Repr

/-- The persisted state: one list of rows per table. -/
structure DB where
  profiles : List Profile
  user_roles : List UserRole
  complaints : List Complaint
  attachments : List Attachment
  history : List StatusHistoryEntry
deriving DecidableEq, Repr

/-- `public.has_role(_user_id, _role)` (second migration): membership in
`user_roles`. -/
def has_role (db : DB) (uid : String) (r : AppRole) : Bool :=
  db.user_roles.any (fun ur => ur.user_id == uid && ur.role == r)

/-- `public.is_admin(user_id)` as redefined by the second migration:
`has_role(user_id, 'admin')`. -/
def is_admin (db : DB) (uid : String) : Bool :=
  has_role db uid AppRole.admin

/-! ## JavaScript string primitives

The handlers use JavaScript's `trim`, `toLowerCase`, `split` and
`includes`; they are modelled on the character list of a `String` so that
every definition evaluates by kernel reduction. -/

/-- JavaScript `s.trim()`: strip whitespace from both ends. -/
def jsTrim (s : String) : String :=
  ⟨(((s.data.dropWhile Char.isWhitespace).reverse.dropWhile
      Char.isWhitespace).reverse)⟩

/-- JavaScript `s.toLowerCase()` (ASCII case folding). -/
def jsToLower (s : String) : String :=
  ⟨s.data.map Char.toLower⟩

/-- Split a character list at a separator character; always returns at
least one (possibly empty) piece. -/
def splitChar (sep : Char) : List Char → List (List Char)
  | [] => [[]]
  | c :: cs =>
    if c = sep then [] :: splitChar sep cs
    else
      match splitChar sep cs with
      | [] => [[c]]
      | piece :: rest => (c :: piece) :: rest

/-- RLS `SELECT` on `complaints`: policy "Students can view their own
complaints" (`auth.uid() = student_id`) OR policy "Admins can view all
complaints" (`has_role(auth.uid(), 'admin')`). -/
def complaintSelectPolicy (db : DB) (uid : String) (c : Complaint) : Bool :=
  uid == c.student_id || is_admin db uid

/-- RLS `INSERT` on `complaints`: policy "Students can create complaints",
`WITH CHECK (auth.uid() = student_id)`. -/
def complaintInsertPolicy (uid : String) (c : Complaint) : Bool :=
  uid == c.student_id

/-- RLS `UPDATE` on `complaints`: policy "Admins can update complaints"
(second migration), `USING (has_role(auth.uid(), 'admin'))`. -/
def complaintUpdatePolicy (db : DB) (uid : String) : Bool :=
  is_admin db uid

/-- RLS `SELECT` on `complaint_status_history`: policy "Users can view
history of their complaints" — an owning complaint with
`student_id = auth.uid()` exists, or the requester is an admin. -/
def historySelectPolicy (db : DB) (uid : String) (h : StatusHistoryEntry) : Bool :=
  db.complaints.any (fun c => c.id == h.complaint_id && c.student_id == uid)
    || is_admin db uid

/-- RLS `INSERT` on `complaint_status_history`: policy "System can insert
history records", literally `WITH CHECK (true)`. -/
def historyInsertPolicy (_db : DB) (_uid : String) (_h : StatusHistoryEntry) : Bool :=
  true

/-- RLS `SELECT` on `attachments`: policy "Users can view attachments of
their complaints" (`auth.uid() = owner_user_id OR is_admin(auth.uid())`). -/
def attachmentSelectPolicy (db : DB) (uid : String) (a : Attachment) : Bool :=
  uid == a.owner_user_id || is_admin db uid

/-- `(storage.foldername(name))[1]`: the first `/`-separated segment of an
object path. -/
def storageFolder1 (path : String) : String :=
  ⟨(splitChar '/' path.data).headD []⟩

/-- Storage `SELECT` policy "Users can view their own attachments" on the
`complaint-attachments` bucket: first path segment equals the requester, or
the requester is an admin.  (The extra policy "Admins can view all
attachments" adds nothing beyond the `is_admin` disjunct.) -/
def storageSelectPolicy (db : DB) (uid : String) (path : String) : Bool :=
  storageFolder1 path == uid || is_admin db uid

/-- Storage `INSERT` policy "Users can upload their own attachments": first
path segment must equal the uploader. -/
def storageInsertPolicy (uid : String) (path : String) : Bool :=
  storageFolder1 path == uid

/-- RLS `UPDATE` on `profiles`, policy "Users can update their own profile":
`USING (auth.uid() = id)` together with
`WITH CHECK (auth.uid() = id AND role = (SELECT role FROM profiles WHERE id = auth.uid()))`.
`oldRow` is the row being updated (the `USING` side), `newRow` the proposed
replacement (the `WITH CHECK` side); the subselect reads the stored profile
of `uid`. -/
def profileUpdatePolicy (db : DB) (uid : String) (oldRow newRow : Profile) : Bool :=
  (uid == oldRow.id) &&
  (uid == newRow.id &&
    match db.profiles.find? (fun p => p.id == uid) with
    | some p => newRow.role == p.role
    | none => false)

/-! ## Admin dashboard: fetch and client-side filtering -/

/-- JavaScript `hay.includes(needle)`: some suffix of `hay` starts with
`needle`. -/
def strContains (hay needle : String) : Bool :=
  (List.range (hay.data.length + 1)).any
    (fun i => needle.data.isPrefixOf (hay.data.drop i))

/-- String form of a status, as stored and as compared by the dashboard
status filter. -/
def statusString : ComplaintStatus → String
  | .open_ => "open"
  | .in_progress => "in_progress"
  | .resolved => "resolved"

/-- String form of a category, as compared by the dashboard category
filter. -/
def categoryString : ComplaintCategory → String
  | .mentor => "mentor"
  | .admin => "admin"
  | .academic_counsellor => "academic_counsellor"
  | .working_hub => "working_hub"
  | .peer => "peer"
  | .other => "other"

/-- A complaint row as returned by the dashboard query, with the joined
`student:student_id (id, full_name, email)` profile. -/
structure ComplaintRow where
  complaint : Complaint
  student : Option Profile
deriving DecidableEq, Repr

/-- Insert into a list kept sorted by `created_at` descending. -/
def insertByCreatedAtDesc (r : ComplaintRow) : List ComplaintRow → List ComplaintRow
  | [] => [r]
  | x :: xs =>
    if x.complaint.created_at ≤ r.complaint.created_at then r :: x :: xs
    else x :: insertByCreatedAtDesc r xs

/-- Sort by `created_at` descending (the query's
`.order("created_at", \x7b ascending: false \x7d)`). -/
def sortByCreatedAtDesc (l : List ComplaintRow) : List ComplaintRow :=
  l.foldr insertByCreatedAtDesc []

/-- `fetchComplaints` (AdminDashboard): select every complaint row visible
to the requester together with its joined student profile, ordered by
`created_at` descending.  The query carries no search predicate: the
search term is not a parameter of the fetch. -/
def fetchComplaintsRows (db : DB) (uid : String) : List ComplaintRow :=
  sortByCreatedAtDesc
    ((db.complaints.filter (complaintSelectPolicy db uid)).map
      (fun c => ⟨c, db.profiles.find? (fun p => p.id == c.student_id)⟩))

/-- The search predicate of `filterComplaints` (AdminDashboard lines 68–77):
`term = searchTerm.toLowerCase()` is matched with `includes` against the
lower-cased title, description, and joined student's email / full name. -/
def matchesSearch (term : String) (r : ComplaintRow) : Bool :=
  strContains (jsToLower r.complaint.title) term
    || strContains (jsToLower r.complaint.description) term
    || (match r.student with
        | some s => strContains (jsToLower s.email) term
            || strContains (jsToLower s.full_name) term
        | none => false)

/-- `filterComplaints` (AdminDashboard): a client-side scan over the rows
already fetched, applying the search term (when non-empty) and the status
and category dropdown filters (when not "all"). -/
def filterComplaints (rows : List ComplaintRow)
    (searchTerm statusFilter categoryFilter : String) : List ComplaintRow :=
  let filtered := rows
  let filtered :=
    if searchTerm ≠ "" then filtered.filter (matchesSearch (jsToLower searchTerm))
    else filtered
  let filtered :=
    if statusFilter ≠ "all" then
      filtered.filter (fun r => statusString r.complaint.status == statusFilter)
    else filtered
  let filtered :=
    if categoryFilter ≠ "all" then
      filtered.filter (fun r => categoryString r.complaint.category == categoryFilter)
    else filtered
  filtered

/-! ## Operations

Each operation returns `Except OpError α × DB`: the outcome together with
the database after the call (unchanged on failure). -/

/-- The spec's error taxonomy (§7). -/
inductive OpError
  | ValidationError
  | Unauthorized
  | NotFound
  | InvalidTransition
deriving DecidableEq, Repr

/-- The history row inserted by the `log_complaint_status_change` trigger:
`(NEW.id, COALESCE(auth.uid(), NEW.student_id), from, NEW.status,
NEW.admin_note, now())`. -/
def triggerHistoryRow (hid : String) (uid : Option String)
    (fromStatus : Option ComplaintStatus) (newRow : Complaint) (now : Nat) :
    StatusHistoryEntry :=
  { id := hid
    complaint_id := newRow.id
    changed_by_user_id := uid.getD newRow.student_id
    from_status := fromStatus
    to_status := newRow.status
    note_snapshot := newRow.admin_note
    changed_at := now }

/-- `log_complaint_status_change` on `UPDATE`: a history row is inserted
only when `OLD.status IS DISTINCT FROM NEW.status`; `from_status` is
`OLD.status`. -/
def logOnUpdate (hid uid : String) (oldRow newRow : Complaint) (now : Nat) :
    List StatusHistoryEntry :=
  if oldRow.status ≠ newRow.status then
    [triggerHistoryRow hid (some uid) (some oldRow.status) newRow now]
  else []

/-- The admin note as written by `handleSave`:
`admin_note: adminNote.trim() || null`. -/
def encodeNote (note : String) : Option String :=
  if jsTrim note == "" then none else some (jsTrim note)

/-- `updateStatus`: the admin detail page's `handleSave` combined with the
storage layer.  In source order:
1. `handleSave` rejects when resolving with an empty/whitespace note;
2. the complaint is the one fetched by id (`NotFound` when absent);
3. `handleSave` rejects when the current status is `resolved`;
4. the RLS update policy admits only admins (a non-admin's update matches
   no row, i.e. the write is refused — `Unauthorized`);
5. on success the row is replaced with the new status, the trimmed-or-null
   note and `updated_at = now()` (the `update_complaints_updated_at`
   trigger), and `log_complaint_status_change` appends to the ledger iff
   the status changed. -/
def updateStatus (db : DB) (requesterId complaintId : String)
    (newStatus : ComplaintStatus) (note : String) (hid : String) (now : Nat) :
    Except OpError Complaint × DB :=
  if newStatus == ComplaintStatus.resolved && jsTrim note == "" then
    (Except.error OpError.ValidationError, db)
  else
    match db.complaints.find? (fun c => c.id == complaintId) with
    | none => (Except.error OpError.NotFound, db)
    | some c =>
      if c.status == ComplaintStatus.resolved then
        (Except.error OpError.InvalidTransition, db)
      else if ¬ complaintUpdatePolicy db requesterId then
        (Except.error OpError.Unauthorized, db)
      else
        let newRow : Complaint :=
          { c with status := newStatus, admin_note := encodeNote note,
                   updated_at := now }
        let db' : DB :=
          { db with
            complaints :=
              db.complaints.map (fun x => if x.id == complaintId then newRow else x)
            history := db.history ++ logOnUpdate hid requesterId c newRow now }
        (Except.ok newRow, db')

/-- Title validation of the new-complaint form:
`z.string().trim().min(1).max(120)`. -/
def titleValid (t : String) : Bool :=
  1 ≤ (jsTrim t).length && (jsTrim t).length ≤ 120

/-- Description validation of the new-complaint form:
`z.string().trim().min(1).max(5000)`. -/
def descriptionValid (d : String) : Bool :=
  1 ≤ (jsTrim d).length && (jsTrim d).length ≤ 5000

/-- `create`: the new-complaint form's `handleSubmit` insert combined with
the schema defaults and triggers.  Field validation first; the inserted row
takes the schema defaults `status = 'open'`, `admin_note = NULL`; the
`log_complaint_status_change` trigger fires on `INSERT` and appends one
ledger row with `from_status = NULL`, `to_status = NEW.status`.
(The RLS insert policy forces `student_id` to the caller, so the caller is
`studentId` itself.) -/
def create (db : DB) (studentId title : String) (category : ComplaintCategory)
    (description : String) (attachmentId : Option String)
    (cid hid : String) (now : Nat) : Except OpError Complaint × DB :=
  if ¬ (titleValid title && descriptionValid description) then
    (Except.error OpError.ValidationError, db)
  else
    let newRow : Complaint :=
      { id := cid, student_id := studentId, title := jsTrim title
        category := category, description := jsTrim description
        attachment_id := attachmentId, status := ComplaintStatus.open_
        admin_note := none, created_at := now, updated_at := now }
    let entry := triggerHistoryRow hid (some studentId) none newRow now
    (Except.ok newRow,
     { db with complaints := db.complaints ++ [newRow]
               history := db.history ++ [entry] })

/-- `get`: fetch one complaint by id.  The RLS select policy decides
visibility; a row hidden from the requester is a refused read
(`Unauthorized`). -/
def get (db : DB) (requesterId complaintId : String) : Except OpError Complaint :=
  match db.complaints.find? (fun c => c.id == complaintId) with
  | none => Except.error OpError.NotFound
  | some c =>
    if complaintSelectPolicy db requesterId c then Except.ok c
    else Except.error OpError.Unauthorized

/-- `listForComplaint`: the status-history query
(`eq("complaint_id", id)`, ordered by `changed_at` ascending, here the
append order).  The RLS predicate on history rows of this complaint —
owning complaint with `student_id = auth.uid()` exists, or admin — decides
visibility; hidden rows are a refused read (`Unauthorized`). -/
def listForComplaint (db : DB) (requesterId complaintId : String) :
    Except OpError (List StatusHistoryEntry) :=
  if db.complaints.any (fun c => c.id == complaintId && c.student_id == requesterId)
      || is_admin db requesterId then
    Except.ok (db.history.filter (fun h => h.complaint_id == complaintId))
  else Except.error OpError.Unauthorized

/-- `download`: `downloadAttachment` reads the attachment row (RLS on
`attachments`), then downloads `stored_path` from the bucket (storage
select policy).  Returns the stored path standing for the byte stream. -/
def download (db : DB) (requesterId attachmentId : String) : Except OpError String :=
  match db.attachments.find? (fun a => a.id == attachmentId) with
  | none => Except.error OpError.NotFound
  | some a =>
    if ¬ attachmentSelectPolicy db requesterId a then
      Except.error OpError.Unauthorized
    else if ¬ storageSelectPolicy db requesterId a.stored_path then
      Except.error OpError.Unauthorized
    else Except.ok a.stored_path

/-- The allowed mime types of `handleFileChange`:
`["application/pdf", "image/jpeg", "image/png", "image/jpg"]`. -/
def validTypes : List String :=
  ["application/pdf", "image/jpeg", "image/png", "image/jpg"]

/-- `maxSize = 10 * 1024 * 1024`. -/
def maxSize : Nat := 10 * 1024 * 1024

/-- The validation of `handleFileChange`: reject a mime type outside
`validTypes`, then a size above `maxSize`; otherwise accept the file. -/
def handleFileChange (mimeType : String) (size : Nat) : Except OpError Unit :=
  if ¬ validTypes.contains mimeType then Except.error OpError.ValidationError
  else if size > maxSize then Except.error OpError.ValidationError
  else Except.ok ()

/-- The stored path built by `handleSubmit`:
`${user.id}/${Date.now()}.${fileExt}` with `fileExt = file.name.split(".").pop()`. -/
def storedPathFor (ownerId filename : String) (now : Nat) : String :=
  ownerId ++ "/" ++ toString now ++ "." ++ (String.mk ((splitChar '.' filename.data).getLastD []))

/-- `upload`: `handleFileChange` validation, then the blob upload and the
`attachments` insert of `handleSubmit`.  On a validation failure nothing is
written. -/
def upload (db : DB) (ownerId filename mimeType : String) (size : Nat)
    (aid : String) (now : Nat) : Except OpError Attachment × DB :=
  match handleFileChange mimeType size with
  | Except.error e => (Except.error e, db)
  | Except.ok _ =>
    let a : Attachment :=
      { id := aid, owner_user_id := ownerId, complaint_id := none
        original_filename := filename
        stored_path := storedPathFor ownerId filename now
        mime_type := mimeType, byte_size := size }
    (Except.ok a, { db with attachments := db.attachments ++ [a] })

/-! ## Concrete fixtures

A small database used by the concrete theorems: two students, one admin,
one open complaint with an attachment, one resolved complaint. -/

def pS1 : Profile :=
  ⟨"s1", AppRole.student, "Sana Iyer", "sana@example.com", true⟩

def pS2 : Profile :=
  ⟨"s2", AppRole.student, "Ravi Nair", "ravi@example.com", true⟩

def pA1 : Profile :=
  ⟨"a1", AppRole.admin, "Asha Menon", "asha@example.com", true⟩

def cOpen : Complaint :=
  ⟨"c1", "s1", "Hostel wifi down", ComplaintCategory.working_hub,
   "No connectivity since Monday", some "t1", ComplaintStatus.open_, none, 10, 10⟩

def cResolved : Complaint :=
  ⟨"c2", "s1", "Mentor unavailable", ComplaintCategory.mentor,
   "Weekly review skipped", none, ComplaintStatus.resolved, some "Rescheduled", 20, 30⟩

def att1 : Attachment :=
  ⟨"t1", "s1", some "c1", "speedtest.png", "s1/100.png", "image/png", 2048⟩

def hOpen : StatusHistoryEntry :=
  ⟨"h1", "c1", "s1", none, ComplaintStatus.open_, none, 10⟩

def hRes1 : StatusHistoryEntry :=
  ⟨"h2", "c2", "s1", none, ComplaintStatus.open_, none, 20⟩

def hRes2 : StatusHistoryEntry :=
  ⟨"h3", "c2", "a1", some ComplaintStatus.open_, ComplaintStatus.resolved,
   some "Rescheduled", 30⟩

def exDB : DB :=
  { profiles := [pS1, pS2, pA1]
    user_roles := [⟨"s1", AppRole.student⟩, ⟨"s2", AppRole.student⟩,
                   ⟨"a1", AppRole.admin⟩]
    complaints := [cOpen, cResolved]
    attachments := [att1]
    history := [hOpen, hRes1, hRes2] }

/-! ## Theorems -/

/-- C3: an `updateStatus` call resolving a complaint with an empty or
whitespace-only note fails with `ValidationError`, and the database — both
the complaint table and the ledger — is left unchanged. -/
theorem resolve_empty_note_validation_error
    (db : DB) (requesterId complaintId note hid : String) (now : Nat)
    (h : jsTrim note = "") :
    updateStatus db requesterId complaintId ComplaintStatus.resolved note hid now
      = (Except.error OpError.ValidationError, db) := by
  simp [updateStatus, h]

/-- Witness for `resolve_empty_note_validation_error` at a whitespace-only
note on the concrete database. -/
theorem resolve_empty_note_validation_error_witness :
    jsTrim "  " = "" ∧
    updateStatus exDB "a1" "c1" ComplaintStatus.resolved "  " "h9" 500
      = (Except.error OpError.ValidationError, exDB) :=
  ⟨by decide, resolve_empty_note_validation_error exDB "a1" "c1" "  " "h9" 500 (by decide)⟩

/-- C1 (counterexample): on a resolved complaint, an `updateStatus` call
with `newStatus = resolved` and an empty note fails with
`ValidationError`, not `InvalidTransition` — `handleSave` checks the
note-required rule before the terminal-status rule. -/
theorem resolved_update_not_always_invalid_transition :
    exDB.complaints.find? (fun c => c.id == "c2") = some cResolved
    ∧ cResolved.status = ComplaintStatus.resolved
    ∧ is_admin exDB "a1" = true
    ∧ updateStatus exDB "a1" "c2" ComplaintStatus.resolved "" "h9" 500
        = (Except.error OpError.ValidationError, exDB) := by
  refine ⟨by decide, by decide, by decide, ?_⟩
  decide

/-- C1 (amended): every `updateStatus` call on a resolved complaint fails
and leaves the database unchanged; the error is `InvalidTransition` except
when `newStatus = resolved` with an empty/whitespace note, where the
note-required check fires first with `ValidationError`. -/
theorem resolved_is_terminal
    (db : DB) (requesterId complaintId : String) (newStatus : ComplaintStatus)
    (note hid : String) (now : Nat) (c : Complaint)
    (hfind : db.complaints.find? (fun x => x.id == complaintId) = some c)
    (hres : c.status = ComplaintStatus.resolved) :
    (updateStatus db requesterId complaintId newStatus note hid now).2 = db
    ∧ ((updateStatus db requesterId complaintId newStatus note hid now).1
        = Except.error OpError.ValidationError
      ∨ (updateStatus db requesterId complaintId newStatus note hid now).1
        = Except.error OpError.InvalidTransition)
    ∧ (¬ (newStatus = ComplaintStatus.resolved ∧ jsTrim note = "") →
        (updateStatus db requesterId complaintId newStatus note hid now).1
          = Except.error OpError.InvalidTransition) := by
  by_cases hv : newStatus == ComplaintStatus.resolved && jsTrim note == ""
  · simp only [Bool.and_eq_true, beq_iff_eq] at hv
    simp [updateStatus, hv]
  · simp [updateStatus, hv, hfind, hres]

/-- Witness for `resolved_is_terminal`: an admin trying to reopen the
concrete resolved complaint. -/
theorem resolved_is_terminal_witness :
    (updateStatus exDB "a1" "c2" ComplaintStatus.in_progress "retry" "h9" 500).2 = exDB
    ∧ ((updateStatus exDB "a1" "c2" ComplaintStatus.in_progress "retry" "h9" 500).1
        = Except.error OpError.ValidationError
      ∨ (updateStatus exDB "a1" "c2" ComplaintStatus.in_progress "retry" "h9" 500).1
        = Except.error OpError.InvalidTransition)
    ∧ (¬ (ComplaintStatus.in_progress = ComplaintStatus.resolved ∧ jsTrim "retry" = "") →
        (updateStatus exDB "a1" "c2" ComplaintStatus.in_progress "retry" "h9" 500).1
          = Except.error OpError.InvalidTransition) :=
  resolved_is_terminal exDB "a1" "c2" ComplaintStatus.in_progress "retry" "h9" 500
    cResolved (by decide) (by decide)

/-- C2 (counterexample): a successful `updateStatus` call that keeps the
status (a note-only edit) appends no ledger row — the trigger only fires
when `OLD.status IS DISTINCT FROM NEW.status`. -/
theorem note_only_update_succeeds_without_entry :
    (updateStatus exDB "a1" "c1" ComplaintStatus.open_ "Working on it" "h9" 500).1
      = Except.ok { cOpen with admin_note := some "Working on it", updated_at := 500 }
    ∧ (updateStatus exDB "a1" "c1" ComplaintStatus.open_ "Working on it" "h9" 500).2.history
      = exDB.history := by
  constructor
  · decide
  · decide

/-- C2 (amended): a successful status-changing `updateStatus` call appends
exactly one ledger row, with `from_status` the pre-call status,
`to_status` the new status and `note_snapshot` the recorded note; a
complaint insert likewise appends exactly one row with
`from_status = null` and `to_status = open`. -/
theorem ledger_append_per_status_change
    (db : DB) (requesterId complaintId : String) (newStatus : ComplaintStatus)
    (note hid : String) (now : Nat) (c : Complaint)
    (hfind : db.complaints.find? (fun x => x.id == complaintId) = some c)
    (hres : c.status ≠ ComplaintStatus.resolved)
    (hchange : newStatus ≠ c.status)
    (hadmin : is_admin db requesterId = true)
    (hval : ¬ (newStatus = ComplaintStatus.resolved ∧ jsTrim note = "")) :
    ((updateStatus db requesterId complaintId newStatus note hid now).1
        = Except.ok { c with status := newStatus, admin_note := encodeNote note,
                             updated_at := now }
      ∧ (updateStatus db requesterId complaintId newStatus note hid now).2.history
        = db.history ++
          [{ id := hid, complaint_id := c.id, changed_by_user_id := requesterId,
             from_status := some c.status, to_status := newStatus,
             note_snapshot := encodeNote note, changed_at := now }])
    ∧ (∀ (sid title : String) (catg : ComplaintCategory) (desc : String)
        (att : Option String) (cid hid2 : String) (n2 : Nat),
        (titleValid title && descriptionValid desc) = true →
        (create db sid title catg desc att cid hid2 n2).2.history
          = db.history ++
            [{ id := hid2, complaint_id := cid, changed_by_user_id := sid,
               from_status := none, to_status := ComplaintStatus.open_,
               note_snapshot := none, changed_at := n2 }]) := by
  have hch : c.status ≠ newStatus := fun h => hchange h.symm
  have hv : (newStatus == ComplaintStatus.resolved && jsTrim note == "") = false := by
    by_cases hns : newStatus = ComplaintStatus.resolved
    · by_cases hnt : jsTrim note = ""
      · exact absurd ⟨hns, hnt⟩ hval
      · simp [hns, hnt]
    · simp [hns]
  refine ⟨?_, ?_⟩
  · simp [updateStatus, hv, hfind, hres, complaintUpdatePolicy, hadmin,
      logOnUpdate, triggerHistoryRow, hch]
  · intro sid title catg desc att cid hid2 n2 hvalid
    simp [create, hvalid, triggerHistoryRow]

/-- Witness for `ledger_append_per_status_change`: the admin moves the
concrete open complaint to `in_progress`. -/
theorem ledger_append_per_status_change_witness :
    ((updateStatus exDB "a1" "c1" ComplaintStatus.in_progress "Looking" "h9" 500).1
        = Except.ok { cOpen with status := ComplaintStatus.in_progress,
                                 admin_note := encodeNote "Looking", updated_at := 500 }
      ∧ (updateStatus exDB "a1" "c1" ComplaintStatus.in_progress "Looking" "h9" 500).2.history
        = exDB.history ++
          [{ id := "h9", complaint_id := cOpen.id, changed_by_user_id := "a1",
             from_status := some cOpen.status,
             to_status := ComplaintStatus.in_progress,
             note_snapshot := encodeNote "Looking", changed_at := 500 }])
    ∧ (∀ (sid title : String) (catg : ComplaintCategory) (desc : String)
        (att : Option String) (cid hid2 : String) (n2 : Nat),
        (titleValid title && descriptionValid desc) = true →
        (create exDB sid title catg desc att cid hid2 n2).2.history
          = exDB.history ++
            [{ id := hid2, complaint_id := cid, changed_by_user_id := sid,
               from_status := none, to_status := ComplaintStatus.open_,
               note_snapshot := none, changed_at := n2 }]) :=
  ledger_append_per_status_change exDB "a1" "c1" ComplaintStatus.in_progress
    "Looking" "h9" 500 cOpen (by decide) (by decide) (by decide) (by decide)
    (by decide)

/-- C4 (code bug): the insert policy on `complaint_status_history` is
`WITH CHECK (true)`, so a non-admin student who does not own the complaint
still passes the storage-layer insert check for a forged history row —
nothing restricts history inserts to the trigger. -/
theorem history_insert_policy_accepts_any_client :
    is_admin exDB "s2" = false
    ∧ cOpen.student_id ≠ "s2"
    ∧ historyInsertPolicy exDB "s2"
        ⟨"h9", "c1", "s2", some ComplaintStatus.open_, ComplaintStatus.resolved,
         some "forged", 600⟩ = true := by
  refine ⟨by decide, by decide, rfl⟩

/-- C5: a student principal who is neither the owner of a complaint nor an
admin is refused on `get`, on the complaint's status history, and on the
download of its attachment, with `Unauthorized` in each case. -/
theorem nonowner_student_unauthorized
    (db : DB) (requesterId : String) (c : Complaint) (a : Attachment)
    (hfindc : db.complaints.find? (fun x => x.id == c.id) = some c)
    (huniq : ∀ x ∈ db.complaints, x.id = c.id → x = c)
    (hfinda : db.attachments.find? (fun x => x.id == a.id) = some a)
    (howner : a.owner_user_id = c.student_id)
    (hne : requesterId ≠ c.student_id)
    (hnadmin : is_admin db requesterId = false) :
    get db requesterId c.id = Except.error OpError.Unauthorized
    ∧ listForComplaint db requesterId c.id = Except.error OpError.Unauthorized
    ∧ download db requesterId a.id = Except.error OpError.Unauthorized := by
  have hne' : c.student_id ≠ requesterId := fun h => hne h.symm
  refine ⟨?_, ?_, ?_⟩
  · simp [get, hfindc, complaintSelectPolicy, hne, hnadmin]
  · have hany : db.complaints.any
        (fun x => x.id == c.id && x.student_id == requesterId) = false := by
      rw [List.any_eq_false]
      intro x hx
      simp only [Bool.and_eq_true, beq_iff_eq, not_and]
      intro h1 h2
      exact hne' ((huniq x hx h1) ▸ h2)
    simp [listForComplaint, hany, hnadmin]
  · simp [download, hfinda, attachmentSelectPolicy, howner, hne, hnadmin]

/-- Witness for `nonowner_student_unauthorized`: the other student `s2` on
the concrete complaint `c1` of `s1` and its attachment. -/
theorem nonowner_student_unauthorized_witness :
    get exDB "s2" cOpen.id = Except.error OpError.Unauthorized
    ∧ listForComplaint exDB "s2" cOpen.id = Except.error OpError.Unauthorized
    ∧ download exDB "s2" att1.id = Except.error OpError.Unauthorized :=
  nonowner_student_unauthorized exDB "s2" cOpen att1 (by decide) (by decide)
    (by decide) (by decide) (by decide) (by decide)

/-- C6: a valid `create` followed by a `get` by the owning student returns
the freshly inserted record with `status = open` and `admin_note = null`,
and the ledger holds exactly one entry for the new complaint, with
`from_status = null` and `to_status = open`. -/
theorem create_then_get_roundtrip
    (db : DB) (studentId title : String) (catg : ComplaintCategory)
    (description : String) (attachmentId : Option String)
    (cid hid : String) (now : Nat)
    (hvalid : (titleValid title && descriptionValid description) = true)
    (hfreshc : ∀ x ∈ db.complaints, x.id ≠ cid)
    (hfreshh : ∀ h ∈ db.history, h.complaint_id ≠ cid) :
    (create db studentId title catg description attachmentId cid hid now).1
      = Except.ok ⟨cid, studentId, jsTrim title, catg, jsTrim description,
                   attachmentId, ComplaintStatus.open_, none, now, now⟩
    ∧ get (create db studentId title catg description attachmentId cid hid now).2
        studentId cid
      = Except.ok ⟨cid, studentId, jsTrim title, catg, jsTrim description,
                   attachmentId, ComplaintStatus.open_, none, now, now⟩
    ∧ ((create db studentId title catg description attachmentId cid hid now).2.history.filter
        (fun h => h.complaint_id == cid))
      = [⟨hid, cid, studentId, none, ComplaintStatus.open_, none, now⟩] := by
  have hnone : db.complaints.find? (fun x => x.id == cid) = none := by
    rw [List.find?_eq_none]
    intro x hx
    simp [hfreshc x hx]
  refine ⟨?_, ?_, ?_⟩
  · simp [create, hvalid]
  · simp [create, hvalid, get, List.find?_append, hnone, complaintSelectPolicy]
  · have hfilter : db.history.filter (fun h => h.complaint_id == cid) = [] := by
      rw [List.filter_eq_nil_iff]
      intro x hx
      simp [hfreshh x hx]
    simp [create, hvalid, List.filter_append, hfilter, triggerHistoryRow]

/-- Witness for `create_then_get_roundtrip`: student `s1` files a fresh
complaint `c3` on the concrete database and reads it back. -/
theorem create_then_get_roundtrip_witness :
    (create exDB "s1" "Projector broken" ComplaintCategory.other
        "Room 4 projector shows no signal" none "c3" "h9" 600).1
      = Except.ok ⟨"c3", "s1", jsTrim "Projector broken", ComplaintCategory.other,
                   jsTrim "Room 4 projector shows no signal", none,
                   ComplaintStatus.open_, none, 600, 600⟩
    ∧ get (create exDB "s1" "Projector broken" ComplaintCategory.other
          "Room 4 projector shows no signal" none "c3" "h9" 600).2 "s1" "c3"
      = Except.ok ⟨"c3", "s1", jsTrim "Projector broken", ComplaintCategory.other,
                   jsTrim "Room 4 projector shows no signal", none,
                   ComplaintStatus.open_, none, 600, 600⟩
    ∧ ((create exDB "s1" "Projector broken" ComplaintCategory.other
          "Room 4 projector shows no signal" none "c3" "h9" 600).2.history.filter
        (fun h => h.complaint_id == "c3"))
      = [⟨"h9", "c3", "s1", none, ComplaintStatus.open_, none, 600⟩] :=
  create_then_get_roundtrip exDB "s1" "Projector broken" ComplaintCategory.other
    "Room 4 projector shows no signal" none "c3" "h9" 600 (by decide) (by decide)
    (by decide)

/-- C7 (counterexample): `image/jpg` is outside the claimed three-element
mime set but is accepted by `handleFileChange` (the code's list has four
entries), and `upload` then creates the attachment record. -/
theorem image_jpg_mime_accepted :
    handleFileChange "image/jpg" 2048 = Except.ok ()
    ∧ "image/jpg" ∉ ["application/pdf", "image/jpeg", "image/png"]
    ∧ (upload exDB "s1" "shot.jpg" "image/jpg" 2048 "t9" 600).1
      = Except.ok ⟨"t9", "s1", none, "shot.jpg", storedPathFor "s1" "shot.jpg" 600,
                   "image/jpg", 2048⟩ := by
  refine ⟨rfl, by decide, rfl⟩

/-- C7 (amended): an upload whose mime type is outside the code's allowed
set `{application/pdf, image/jpeg, image/png, image/jpg}` or whose byte
length exceeds 10,485,760 fails with `ValidationError` and the database is
unchanged — no attachment record is created. -/
theorem upload_rejects_invalid_mime_or_oversize
    (db : DB) (ownerId filename mimeType : String) (size : Nat)
    (aid : String) (now : Nat)
    (h : mimeType ∉ validTypes ∨ 10485760 < size) :
    upload db ownerId filename mimeType size aid now
      = (Except.error OpError.ValidationError, db) := by
  rcases h with h | h
  · simp [upload, handleFileChange, h]
  · by_cases hm : mimeType ∈ validTypes
    · have hsize : maxSize < size := by
        simpa [maxSize] using h
      simp [upload, handleFileChange, hm, hsize]
    · simp [upload, handleFileChange, hm]

/-- Witness for `upload_rejects_invalid_mime_or_oversize`: a `text/plain`
upload and, via the size disjunct, an 11 MB png. -/
theorem upload_rejects_invalid_mime_or_oversize_witness :
    upload exDB "s1" "notes.txt" "text/plain" 64 "t9" 600
      = (Except.error OpError.ValidationError, exDB)
    ∧ upload exDB "s1" "big.png" "image/png" 11534336 "t9" 600
      = (Except.error OpError.ValidationError, exDB) :=
  ⟨upload_rejects_invalid_mime_or_oversize exDB "s1" "notes.txt" "text/plain"
      64 "t9" 600 (Or.inl (by decide)),
   upload_rejects_invalid_mime_or_oversize exDB "s1" "big.png" "image/png"
      11534336 "t9" 600 (Or.inr (by decide))⟩

/-- C8 (counterexample): the dashboard fetch returns every visible
complaint regardless of the search term — it has no search parameter — and
the term is then applied by `filterComplaints` as a client-side scan over
the fetched rows: for the term "wifi" the data layer still returns the
non-matching resolved complaint, which the client scan then drops. -/
theorem admin_search_is_client_side_scan :
    fetchComplaintsRows exDB "a1" = [⟨cResolved, some pS1⟩, ⟨cOpen, some pS1⟩]
    ∧ matchesSearch "wifi" ⟨cResolved, some pS1⟩ = false
    ∧ filterComplaints (fetchComplaintsRows exDB "a1") "wifi" "all" "all"
      = [⟨cOpen, some pS1⟩] := by
  refine ⟨by decide, by decide, by decide⟩

/-- C8 (amended): with a non-empty search term and no status/category
filter, the dashboard result contains exactly the fetched rows whose
title, description, or joined student's email or full name contains the
term case-insensitively — computed by a client-side scan over the rows
fetched (with the student join) by an unfiltered query. -/
theorem admin_search_matches_exactly
    (db : DB) (uid searchTerm : String) (r : ComplaintRow)
    (hterm : searchTerm ≠ "") :
    r ∈ filterComplaints (fetchComplaintsRows db uid) searchTerm "all" "all"
      ↔ r ∈ fetchComplaintsRows db uid
        ∧ (strContains (jsToLower r.complaint.title) (jsToLower searchTerm) = true
          ∨ strContains (jsToLower r.complaint.description) (jsToLower searchTerm) = true
          ∨ ∃ s, r.student = some s
              ∧ (strContains (jsToLower s.email) (jsToLower searchTerm) = true
                ∨ strContains (jsToLower s.full_name) (jsToLower searchTerm) = true)) := by
  have hfilter : filterComplaints (fetchComplaintsRows db uid) searchTerm "all" "all"
      = (fetchComplaintsRows db uid).filter (matchesSearch (jsToLower searchTerm)) := by
    simp [filterComplaints, hterm]
  rw [hfilter, List.mem_filter]
  refine and_congr_right fun _ => ?_
  cases hs : r.student <;> simp [matchesSearch, hs, or_assoc]

/-- Witness for `admin_search_matches_exactly` at the concrete database,
admin requester and term "wifi", instantiated with the matching row. -/
theorem admin_search_matches_exactly_witness :
    (⟨cOpen, some pS1⟩ : ComplaintRow)
        ∈ filterComplaints (fetchComplaintsRows exDB "a1") "wifi" "all" "all"
      ↔ (⟨cOpen, some pS1⟩ : ComplaintRow) ∈ fetchComplaintsRows exDB "a1"
        ∧ (strContains (jsToLower cOpen.title) (jsToLower "wifi") = true
          ∨ strContains (jsToLower cOpen.description) (jsToLower "wifi") = true
          ∨ ∃ s, (some pS1 : Option Profile) = some s
              ∧ (strContains (jsToLower s.email) (jsToLower "wifi") = true
                ∨ strContains (jsToLower s.full_name) (jsToLower "wifi") = true)) :=
  admin_search_matches_exactly exDB "a1" "wifi" ⟨cOpen, some pS1⟩ (by decide)

/-- C9: any profile update admitted by the update policy on `profiles` —
the only client update path for profiles — keeps the `role` field
unchanged; a principal can edit their own name/email but not any role. -/
theorem profile_role_immutable
    (db : DB) (uid : String) (oldRow newRow : Profile)
    (hfind : db.profiles.find? (fun p => p.id == uid) = some oldRow)
    (hpol : profileUpdatePolicy db uid oldRow newRow = true) :
    newRow.role = oldRow.role := by
  simp only [profileUpdatePolicy, hfind, Bool.and_eq_true, beq_iff_eq] at hpol
  exact hpol.2.2

/-- Witness for `profile_role_immutable`: student `s1` renames their own
profile; the policy admits the update and the role is unchanged. -/
theorem profile_role_immutable_witness :
    profileUpdatePolicy exDB "s1" pS1
        ⟨"s1", AppRole.student, "Sana K Iyer", "sana@example.com", true⟩ = true
    ∧ (⟨"s1", AppRole.student, "Sana K Iyer", "sana@example.com", true⟩ : Profile).role
      = pS1.role :=
  ⟨by decide,
   profile_role_immutable exDB "s1" pS1
     ⟨"s1", AppRole.student, "Sana K Iyer", "sana@example.com", true⟩
     (by decide) (by decide)⟩

/-- C10: an admin update that keeps the status (a note-only edit) succeeds,
changes `admin_note` and `updated_at` on the stored row, and appends
nothing to the ledger. -/
theorem note_only_update_frame
    (db : DB) (requesterId complaintId note hid : String) (now : Nat)
    (c : Complaint)
    (hfind : db.complaints.find? (fun x => x.id == complaintId) = some c)
    (hnotres : c.status ≠ ComplaintStatus.resolved)
    (hadmin : is_admin db requesterId = true)
    (hnote : encodeNote note ≠ c.admin_note)
    (hnow : now ≠ c.updated_at) :
    (updateStatus db requesterId complaintId c.status note hid now).1
      = Except.ok { c with admin_note := encodeNote note, updated_at := now }
    ∧ (updateStatus db requesterId complaintId c.status note hid now).2.history
      = db.history
    ∧ (updateStatus db requesterId complaintId c.status note hid now).2.complaints
      = db.complaints.map (fun x =>
          if x.id == complaintId then
            { c with admin_note := encodeNote note, updated_at := now }
          else x)
    ∧ ({ c with admin_note := encodeNote note, updated_at := now }).admin_note
      ≠ c.admin_note
    ∧ ({ c with admin_note := encodeNote note, updated_at := now }).updated_at
      ≠ c.updated_at := by
  have hval : (c.status == ComplaintStatus.resolved && jsTrim note == "") = false := by
    simp [hnotres]
  refine ⟨?_, ?_, ?_, hnote, hnow⟩
  · simp [updateStatus, hval, hfind, hnotres, complaintUpdatePolicy, hadmin]
  · simp [updateStatus, hval, hfind, hnotres, complaintUpdatePolicy, hadmin,
      logOnUpdate]
  · simp [updateStatus, hval, hfind, hnotres, complaintUpdatePolicy, hadmin]

/-- Witness for `note_only_update_frame`: the admin adds a note to the
concrete open complaint without touching its status. -/
theorem note_only_update_frame_witness :
    (updateStatus exDB "a1" "c1" cOpen.status "Investigating" "h9" 500).1
      = Except.ok { cOpen with admin_note := encodeNote "Investigating",
                               updated_at := 500 }
    ∧ (updateStatus exDB "a1" "c1" cOpen.status "Investigating" "h9" 500).2.history
      = exDB.history
    ∧ (updateStatus exDB "a1" "c1" cOpen.status "Investigating" "h9" 500).2.complaints
      = exDB.complaints.map (fun x =>
          if x.id == "c1" then
            { cOpen with admin_note := encodeNote "Investigating", updated_at := 500 }
          else x)
    ∧ ({ cOpen with admin_note := encodeNote "Investigating",
                    updated_at := 500 }).admin_note ≠ cOpen.admin_note
    ∧ ({ cOpen with admin_note := encodeNote "Investigating",
                    updated_at := 500 }).updated_at ≠ cOpen.updated_at :=
  note_only_update_frame exDB "a1" "c1" "Investigating" "h9" 500 cOpen
    (by decide) (by decide) (by decide) (by decide) (by decide)

end BrotoVoiceDesk
